import Mathlib

/-!
Verification of the picow-timer-emu firmware (src/main.c, src/cmd.c).

The development shallowly embeds the two source files:

* `src/main.c`: the pulse-generation loop, the button interrupt handler with
  its 200 ms debounce, and the period/high/low millisecond computations.
* `src/cmd.c`: the line-oriented command interpreter (`cmd_execute`) and the
  console polling callback (`cmd_timer_callback`) with its 256-byte buffer.

The clock module (`clock.c` / `clock.h`) called by `cmd.c` is not part of the
sources; its state and accessors are modelled from the specification and are
marked as such in their doc comments.

C `int` values are embedded as `Int` with `Int.tdiv` (truncation toward zero,
the C semantics); unsigned conversions use explicit `% 2 ^ w`. Machine
timestamps (`uint32_t` milliseconds) are `Nat` below `2 ^ 32`, and the C
unsigned subtraction `now - last` is the wrapping `debounce_diff`.
-/

namespace PicowTimerEmu

/-! Constants from src/main.c. -/

/-- Mode constant `ASTABLE` (main.c line 7). -/
def ASTABLE : Nat := 0

/-- Mode constant `MONOSTABLE` (main.c line 8). -/
def MONOSTABLE : Nat := 1

/-- Debounce window in ms, `DEBOUNCE_DELAY` (main.c line 10). -/
def DEBOUNCE_DELAY : Nat := 200

/-- GPIO pin of the MODE button (main.c line 16). -/
def MODE_PIN : Nat := 14

/-- GPIO pin of the STEP button (main.c line 18). -/
def STEP_PIN : Nat := 15

/-- Shared mutable state of src/main.c: the volatile globals `frequency`,
`duty_cycle`, `mode`, `pulse` and `last_interrupt_ms` (main.c lines 25-32). -/
structure MainState where
  frequency : Int
  duty_cycle : Int
  mode : Nat
  pulse : Bool
  last_interrupt_ms : Nat
deriving DecidableEq, Repr

/-- Wrapping `uint32_t` difference `now - last` (main.c line 48): both inputs
are below `2 ^ 32` and the C subtraction wraps modulo `2 ^ 32`. -/
def debounce_diff (now last : Nat) : Nat :=
  (now + 2 ^ 32 - last) % 2 ^ 32

/-- Embedding of `handle_button_interrupt` (main.c lines 42-65): drop the edge
when it falls inside the debounce window; otherwise toggle the mode (MODE
button), or set `pulse` (STEP button, Monostable only), and record the
accepted-edge timestamp. -/
def handle_button_interrupt (s : MainState) (gpio : Nat) (now : Nat) : MainState :=
  if debounce_diff now s.last_interrupt_ms < DEBOUNCE_DELAY then
    s
  else if gpio = MODE_PIN then
    let newMode := if s.mode = ASTABLE then MONOSTABLE else ASTABLE
    { s with
      mode := newMode
      pulse := if newMode = MONOSTABLE then false else true
      last_interrupt_ms := now }
  else if gpio = STEP_PIN ∧ s.mode = MONOSTABLE then
    { s with pulse := true, last_interrupt_ms := now }
  else
    { s with last_interrupt_ms := now }

/-- Period in ms, `sleep_in_ms = 1000 / frequency` (main.c line 154), with the
C truncating `int` division. -/
def sleep_in_ms (frequency : Int) : Int :=
  Int.tdiv 1000 frequency

/-- High time in ms, `high_time = sleep_in_ms * duty_cycle / 100`
(main.c line 155). -/
def high_time (frequency duty_cycle : Int) : Int :=
  Int.tdiv (sleep_in_ms frequency * duty_cycle) 100

/-- Low time in ms, `low_time = sleep_in_ms - high_time` (main.c line 156). -/
def low_time (frequency duty_cycle : Int) : Int :=
  sleep_in_ms frequency - high_time frequency duty_cycle

/-- Observable output of one pulse-loop iteration: the length of the emitted
high pulse (`sleep_ms(high_time)` between the two `gpio_put` pairs, main.c
lines 171-177), and, when the iteration holds the line low afterwards
(`sleep_ms(low_time)`, Astable only, main.c line 181), that low hold time. -/
structure Emission where
  high_ms : Int
  low_hold_ms : Option Int
deriving DecidableEq, Repr

/-- Embedding of one iteration of the main pulse loop (main.c lines 147-185):
with `pulse` false the iteration is a bare `continue`; otherwise it emits one
high pulse of `high_time`, then in Astable mode sleeps `low_time` and leaves
the state unchanged, while in any other mode it skips the low sleep and
clears `pulse`. -/
def loop_iteration (s : MainState) : MainState × Option Emission :=
  if s.pulse = false then
    (s, none)
  else
    let hi := high_time s.frequency s.duty_cycle
    let lo := low_time s.frequency s.duty_cycle
    if s.mode = ASTABLE then
      (s, some ⟨hi, some lo⟩)
    else
      ({ s with pulse := false }, some ⟨hi, none⟩)

/-! Constants used by src/cmd.c via clock.h. `CLOCK_TIMER_RPT` must be the
zero value and `CLOCK_TIMER_PWM` nonzero, because cmd.c line 90 prints the
PWM-only fields under `if (timer_type)`; `CLOCK_MONOSTABLE` mirrors
`MONOSTABLE` of main.c. -/

/-- Timer kind constant for the repeating-timer backend. -/
def CLOCK_TIMER_RPT : Nat := 0

/-- Timer kind constant for the PWM backend. -/
def CLOCK_TIMER_PWM : Nat := 1

/-- Astable mode constant of the clock module. -/
def CLOCK_ASTABLE : Nat := 0

/-- Monostable mode constant of the clock module. -/
def CLOCK_MONOSTABLE : Nat := 1

/-- Modelled from the spec: the GeneratorState held by the missing clock
module (`clock.c` is not among the sources; cmd.c only calls its accessors).
Fields are the spec's §3 data model: mode, pulse-enable flag, frequency
(`u_int32_t`), duty cycle (`u_int16_t`), and the output timer kind. -/
structure ClockState where
  freq_hz : Nat
  duty_cycle : Nat
  timer_type : Nat
  mode : Nat
  pulse_enabled : Bool
deriving DecidableEq, Repr

/-- Modelled from the spec: `clock_set_freq_hz` commits the frequency
(spec §4.1: "otherwise commits"). -/
def clock_set_freq_hz (s : ClockState) (hz : Nat) : ClockState :=
  { s with freq_hz := hz }

/-- Modelled from the spec: getter for the committed frequency. -/
def clock_get_freq_hz (s : ClockState) : Nat :=
  s.freq_hz

/-- Modelled from the spec: `clock_set_duty_cycle` commits the duty cycle. -/
def clock_set_duty_cycle (s : ClockState) (d : Nat) : ClockState :=
  { s with duty_cycle := d }

/-- Modelled from the spec: getter for the duty cycle. -/
def clock_get_duty_cycle (s : ClockState) : Nat :=
  s.duty_cycle

/-- Modelled from the spec: getter for the output timer kind. -/
def clock_get_timer_type (s : ClockState) : Nat :=
  s.timer_type

/-- Modelled from the spec: getter for the current mode. -/
def clock_get_mode (s : ClockState) : Nat :=
  s.mode

/-- Modelled from the spec: `start` sets pulse-enable true (spec §4.3). -/
def clock_pulse_start (s : ClockState) : ClockState :=
  { s with pulse_enabled := true }

/-- Modelled from the spec: `stop` sets pulse-enable false (spec §4.3). -/
def clock_pulse_stop (s : ClockState) : ClockState :=
  { s with pulse_enabled := false }

/-- Modelled from the spec: `clock_step b` arms (`b = true`, one forced step
pulse) or disarms (`b = false`, return to armed-low) the step state
(spec §4.3, rows `step` and `exit`). -/
def clock_step (s : ClockState) (b : Bool) : ClockState :=
  { s with pulse_enabled := b }

/-- Modelled from the spec: `clock_step_pulse` is the implicit step request of
the fallback branch — a step request sets pulse-enable true (spec §4.2). -/
def clock_step_pulse (s : ClockState) : ClockState :=
  { s with pulse_enabled := true }

/-- Modelled from the spec: `clock_reset` restores the §3 lifecycle defaults
(duty 50 %, Astable, pulse-enable true; frequency back to the fixed default). -/
def clock_reset (s : ClockState) : ClockState :=
  { s with freq_hz := 1, duty_cycle := 50, mode := CLOCK_ASTABLE, pulse_enabled := true }

/-- Digit-accumulation part of C `atoi`: consume decimal digits, stopping at
the first non-digit. -/
def atoi_digits : List Char → Nat → Nat
  | [], acc => acc
  | c :: cs, acc =>
    if c.isDigit then atoi_digits cs (acc * 10 + (c.toNat - 48)) else acc

/-- Whitespace test used by C `atoi` before the optional sign. -/
def atoi_space (c : Char) : Bool :=
  c = ' ' || c = '\t' || c = '\n' || c = '\r' || c = '\x0b' || c = '\x0c'

/-- Embedding of C `atoi` on the in-range inputs (overflow of the C `int` is
undefined behaviour, so theorems restrict the parsed value to `< 2 ^ 31`):
skip whitespace, read an optional sign, then decimal digits. -/
def atoi (s : List Char) : Int :=
  match s.dropWhile atoi_space with
  | '-' :: rest => - (atoi_digits rest 0 : Int)
  | '+' :: rest => (atoi_digits rest 0 : Int)
  | rest => (atoi_digits rest 0 : Int)

/-- Side effects a command execution can produce, in order: console text, the
help/info/banner printers, the reboot primitive, and the timer bracketing
(`cmd_stop` at entry, `cmd_run` at exit) of cmd.c lines 144 and 227. -/
inductive CmdEffect where
  | msg (s : String)
  | help
  | info
  | boot_message
  | reboot
  | stop_timer
  | run_timer
deriving DecidableEq, Repr

/-- Hint text printed by the `step` command (cmd.c line 146). -/
def step_message : String :=
  "* Monostable mode press `enter` to step and type `exit` and hit enter to go back to Astable mode\n"

/-- Dispatch chain of `cmd_execute` (cmd.c lines 149-224), between the
`cmd_stop()` prologue and `cmd_run()` epilogue. `strcmp(cmd, t) == 0` is
`cmd = t`; `strncmp(cmd, t, 4) == 0` is `cmd.take 4 = t`; `cmd + 5` is
`cmd.drop 5`; the `u_int32_t` and `u_int16_t` conversions of the parsed
values are the explicit `% 2 ^ 32` and `% 2 ^ 16`. -/
def cmd_execute_core (cmd : List Char) (s : ClockState) : ClockState × List CmdEffect :=
  if cmd = "?".data then
    (s, [.help])
  else if cmd = "start".data then
    (clock_pulse_start s, [.msg "* Clock started\n"])
  else if cmd = "stop".data then
    (clock_pulse_stop s, [.msg "* Clock stopped\n"])
  else if cmd = "step".data then
    (clock_step s true, [.msg step_message, .info])
  else if cmd.take 4 = "freq".data then
    let hz : Nat := (atoi (cmd.drop 5) % (2 ^ 32 : Int)).toNat
    if hz > 125000000 then
      (s, [.msg "Frequency cannot be greater than 125000000\n"])
    else
      (clock_set_freq_hz s hz, [.info])
  else if cmd.take 4 = "duty".data then
    let dc : Nat := (atoi (cmd.drop 5) % (2 ^ 16 : Int)).toNat
    if clock_get_timer_type s = CLOCK_TIMER_RPT then
      (s, [.msg "Duty cycle can only be set in PWM mode\n"])
    else if dc > 100 then
      (s, [.msg "Duty cycle cannot be greater than 100\n"])
    else
      (clock_set_duty_cycle s dc, [.info])
  else if cmd = "reset".data then
    (clock_reset s, [.boot_message])
  else if cmd = "reboot".data then
    (s, [.msg "* Rebooting to BOOTSEL mode\n", .reboot])
  else if cmd = "clear".data then
    (s, [.boot_message])
  else if cmd = "exit".data ∧ clock_get_mode s = CLOCK_MONOSTABLE then
    (clock_step s false, [.info])
  else if clock_get_mode s = CLOCK_MONOSTABLE then
    (clock_step_pulse s, [.msg "...\n"])
  else
    (s, [.msg "Unknown command\n"])

/-- Embedding of `cmd_execute` (cmd.c lines 141-228): `cmd_stop()` first, the
dispatch chain, then `cmd_run()`. -/
def cmd_execute (cmd : List Char) (s : ClockState) : ClockState × List CmdEffect :=
  ((cmd_execute_core cmd s).1,
    CmdEffect.stop_timer :: (cmd_execute_core cmd s).2 ++ [CmdEffect.run_timer])

/-- Result of one console poll tick: the line buffer after the tick, the line
handed to `cmd_execute` if one was dispatched, and the bytes echoed back
(the corrective space, or the erase sequence). -/
structure TickResult where
  buf : List Char
  dispatched : Option (List Char)
  echo : String
deriving DecidableEq, Repr

/-- Embedding of `cmd_timer_callback` (cmd.c lines 236-281). The buffer is
the list of accumulated characters (`index` is its length); the input is
`none` for `PICO_ERROR_TIMEOUT` and `some c` for a received byte `c`.
Backspace (`0x08`/`0x7F`) on an empty buffer only echoes a space; newline or
carriage return dispatches the line and clears the buffer; any other byte is
appended only while `index < 255` (`sizeof(cmd_buffer) - 1`). -/
def cmd_timer_callback (buf : List Char) (ch : Option Nat) : TickResult :=
  match ch with
  | none => ⟨buf, none, ""⟩
  | some c =>
    if c = 0x08 ∨ c = 0x7F then
      if buf.length = 0 then
        ⟨buf, none, " "⟩
      else
        ⟨buf.dropLast, none, " \x08 \x08"⟩
    else if c = 10 ∨ c = 13 then
      ⟨[], some buf, ""⟩
    else if buf.length < 255 then
      ⟨buf ++ [Char.ofNat c], none, ""⟩
    else
      ⟨buf, none, ""⟩

/-- Buffer contents after feeding a byte sequence to the console callback,
starting from the empty (just cleared) buffer. -/
def console_run (inputs : List (Option Nat)) : List Char :=
  inputs.foldl (fun b i => (cmd_timer_callback b i).buf) []

/-! Helper lemmas shared by the claim theorems. -/

/-- An edge inside the debounce window leaves the interrupt handler's state
untouched (the early return of main.c line 49). -/
theorem handle_dropped (s : MainState) (g t : Nat)
    (h : debounce_diff t s.last_interrupt_ms < DEBOUNCE_DELAY) :
    handle_button_interrupt s g t = s := by
  unfold handle_button_interrupt
  rw [if_pos h]

/-- An edge that passes the debounce check records its own timestamp,
whichever branch it then takes (main.c line 64). -/
theorem handle_accepted_last (s : MainState) (g t : Nat)
    (h : ¬ debounce_diff t s.last_interrupt_ms < DEBOUNCE_DELAY) :
    (handle_button_interrupt s g t).last_interrupt_ms = t := by
  unfold handle_button_interrupt
  rw [if_neg h]
  split
  next => rfl
  next =>
    split
    next => rfl
    next => rfl

/-- Evaluation of the dispatch chain on a `freq` line: only the frequency cap
is checked, and the committed value is the parsed integer converted to
`u_int32_t`. -/
theorem cmd_core_on_freq (s : ClockState) (cmd : List Char) (n : Nat)
    (hmatch : cmd.take 4 = "freq".data)
    (hparse : atoi (cmd.drop 5) = (n : Int))
    (hn : n < 2 ^ 31) :
    cmd_execute_core cmd s =
      if n > 125000000 then
        (s, [.msg "Frequency cannot be greater than 125000000\n"])
      else
        (clock_set_freq_hz s n, [.info]) := by
  have h1 : cmd ≠ "?".data := by
    intro h; rw [h] at hmatch; exact absurd hmatch (by decide)
  have h2 : cmd ≠ "start".data := by
    intro h; rw [h] at hmatch; exact absurd hmatch (by decide)
  have h3 : cmd ≠ "stop".data := by
    intro h; rw [h] at hmatch; exact absurd hmatch (by decide)
  have h4 : cmd ≠ "step".data := by
    intro h; rw [h] at hmatch; exact absurd hmatch (by decide)
  unfold cmd_execute_core
  rw [if_neg h1, if_neg h2, if_neg h3, if_neg h4, if_pos hmatch]
  have hz_eq : (atoi (cmd.drop 5) % (2 ^ 32 : Int)).toNat = n := by
    rw [hparse]; omega
  simp only [hz_eq]

/-- Evaluation of the dispatch chain on a `duty` line: the timer-kind check
comes first, then the 100 cap is tested on the parsed integer converted to
`u_int16_t` (that is, reduced modulo `2 ^ 16`). -/
theorem cmd_core_on_duty (s : ClockState) (cmd : List Char) (n : Nat)
    (hmatch : cmd.take 4 = "duty".data)
    (hparse : atoi (cmd.drop 5) = (n : Int))
    (hn : n < 2 ^ 31) :
    cmd_execute_core cmd s =
      if clock_get_timer_type s = CLOCK_TIMER_RPT then
        (s, [.msg "Duty cycle can only be set in PWM mode\n"])
      else if n % 2 ^ 16 > 100 then
        (s, [.msg "Duty cycle cannot be greater than 100\n"])
      else
        (clock_set_duty_cycle s (n % 2 ^ 16), [.info]) := by
  have h1 : cmd ≠ "?".data := by
    intro h; rw [h] at hmatch; exact absurd hmatch (by decide)
  have h2 : cmd ≠ "start".data := by
    intro h; rw [h] at hmatch; exact absurd hmatch (by decide)
  have h3 : cmd ≠ "stop".data := by
    intro h; rw [h] at hmatch; exact absurd hmatch (by decide)
  have h4 : cmd ≠ "step".data := by
    intro h; rw [h] at hmatch; exact absurd hmatch (by decide)
  have h5 : cmd.take 4 ≠ "freq".data := by
    intro h; rw [h] at hmatch; exact absurd hmatch (by decide)
  unfold cmd_execute_core
  rw [if_neg h1, if_neg h2, if_neg h3, if_neg h4, if_neg h5, if_pos hmatch]
  have hdc_eq : (atoi (cmd.drop 5) % (2 ^ 16 : Int)).toNat = n % 2 ^ 16 := by
    rw [hparse]; omega
  simp only [hdc_eq]

/-- One console tick never grows the buffer beyond 255 characters. -/
theorem tick_buf_le (buf : List Char) (ch : Option Nat) (h : buf.length ≤ 255) :
    (cmd_timer_callback buf ch).buf.length ≤ 255 := by
  cases ch with
  | none => simpa [cmd_timer_callback] using h
  | some c =>
    simp only [cmd_timer_callback]
    split
    next =>
      split
      next => simpa using h
      next =>
        simp [List.length_dropLast]
        omega
    next =>
      split
      next => simp
      next =>
        split
        next h255 => simp; omega
        next => simpa using h

/-! Claim theorems. -/

/-- C1: with mode = Monostable and pulse-enable = true, one iteration of the
pulse loop emits exactly one high pulse of length `high_time` and clears
`pulse` without a low-time hold; with `pulse` cleared no further iteration
emits anything, and in Astable mode an enabled iteration instead emits a high
pulse followed by a `low_time` low hold and leaves the state unchanged. -/
theorem monostable_iteration_single_pulse (s : MainState)
    (hm : s.mode = MONOSTABLE) (hp : s.pulse = true) :
    loop_iteration s =
      ({ s with pulse := false }, some ⟨high_time s.frequency s.duty_cycle, none⟩)
    ∧ (∀ t : MainState, t.pulse = false → loop_iteration t = (t, none))
    ∧ (∀ t : MainState, t.mode = ASTABLE → t.pulse = true →
        loop_iteration t =
          (t, some ⟨high_time t.frequency t.duty_cycle,
                    some (low_time t.frequency t.duty_cycle)⟩)) := by
  refine ⟨?_, ?_, ?_⟩
  · unfold loop_iteration
    rw [hp, hm]
    simp [MONOSTABLE, ASTABLE]
  · intro t ht
    unfold loop_iteration
    rw [ht]
    simp
  · intro t htm htp
    unfold loop_iteration
    rw [htp, htm]
    simp [ASTABLE]

/-- C1 witness: at frequency 1 Hz and duty 50 %, a Monostable iteration with
pulse-enable set emits one 500 ms high pulse and clears pulse-enable. -/
theorem monostable_iteration_single_pulse_witness :
    loop_iteration ⟨1, 50, 1, true, 0⟩ = (⟨1, 50, 1, false, 0⟩, some ⟨500, none⟩) := by
  have h := (monostable_iteration_single_pulse ⟨1, 50, 1, true, 0⟩ rfl rfl).1
  rw [h]
  decide

/-- C5 counterexample: the debounce timestamp is shared, not per button. The
MODE edge at t = 1000 ms is accepted (the state becomes Monostable with
pulse-enable false); a STEP edge on the other button at t = 1100 ms — inside
the 200 ms window — is dropped and changes nothing, although the identical
STEP edge at t = 1300 ms is accepted and sets pulse-enable. -/
theorem debounce_per_button_counterexample :
    handle_button_interrupt ⟨1, 50, 0, true, 0⟩ 14 1000 = ⟨1, 50, 1, false, 1000⟩
    ∧ handle_button_interrupt ⟨1, 50, 1, false, 1000⟩ 15 1100 = ⟨1, 50, 1, false, 1000⟩
    ∧ handle_button_interrupt ⟨1, 50, 1, false, 1000⟩ 15 1300 = ⟨1, 50, 1, true, 1300⟩ := by
  decide

/-- C5 (amended): the debounce timestamp is shared by both logical buttons:
after any accepted edge at time `t1`, any edge on any button arriving less
than 200 ms later is dropped entirely, whether it is on the same or on the
other button. -/
theorem debounce_shared_window (s : MainState) (g1 g2 t1 t2 : Nat)
    (ht1 : t1 < 2 ^ 32) (ht2 : t2 < 2 ^ 32)
    (hacc : ¬ debounce_diff t1 s.last_interrupt_ms < DEBOUNCE_DELAY)
    (hle : t1 ≤ t2) (hwin : t2 - t1 < DEBOUNCE_DELAY) :
    handle_button_interrupt (handle_button_interrupt s g1 t1) g2 t2 =
      handle_button_interrupt s g1 t1 := by
  apply handle_dropped
  rw [handle_accepted_last s g1 t1 hacc]
  unfold debounce_diff DEBOUNCE_DELAY
  unfold DEBOUNCE_DELAY at hwin
  omega

/-- C5 (amended) witness: the accepted MODE edge at 1000 ms makes the STEP
edge at 1100 ms a no-op. -/
theorem debounce_shared_window_witness :
    handle_button_interrupt (handle_button_interrupt ⟨1, 50, 0, true, 0⟩ 14 1000) 15 1100 =
      handle_button_interrupt ⟨1, 50, 0, true, 0⟩ 14 1000 :=
  debounce_shared_window ⟨1, 50, 0, true, 0⟩ 14 15 1000 1100
    (by decide) (by decide) (by decide) (by decide) (by decide)

/-- C6: from Astable with pulse-enable true, two accepted MODE-toggle edges
return the state to Astable with pulse-enable true, passing through
Monostable with pulse-enable forced false. -/
theorem mode_toggle_double_restores (s : MainState) (t1 t2 : Nat)
    (hm : s.mode = ASTABLE) (hp : s.pulse = true)
    (hacc1 : ¬ debounce_diff t1 s.last_interrupt_ms < DEBOUNCE_DELAY)
    (hacc2 : ¬ debounce_diff t2 t1 < DEBOUNCE_DELAY) :
    (handle_button_interrupt s MODE_PIN t1).mode = MONOSTABLE
    ∧ (handle_button_interrupt s MODE_PIN t1).pulse = false
    ∧ (handle_button_interrupt (handle_button_interrupt s MODE_PIN t1) MODE_PIN t2).mode = ASTABLE
    ∧ (handle_button_interrupt (handle_button_interrupt s MODE_PIN t1) MODE_PIN t2).pulse = true := by
  have e1 : handle_button_interrupt s MODE_PIN t1 =
      { s with mode := MONOSTABLE, pulse := false, last_interrupt_ms := t1 } := by
    unfold handle_button_interrupt
    rw [if_neg hacc1, if_pos rfl]
    simp [hm, ASTABLE, MONOSTABLE]
  have e2 : handle_button_interrupt
      { s with mode := MONOSTABLE, pulse := false, last_interrupt_ms := t1 } MODE_PIN t2 =
      { s with mode := ASTABLE, pulse := true, last_interrupt_ms := t2 } := by
    unfold handle_button_interrupt
    rw [if_neg (by simpa using hacc2), if_pos rfl]
    simp [ASTABLE, MONOSTABLE]
  rw [e1, e2]
  simp

/-- C6 witness: concrete toggle-toggle run at t = 1000 ms and t = 2000 ms. -/
theorem mode_toggle_double_restores_witness :
    (handle_button_interrupt ⟨1, 50, 0, true, 0⟩ MODE_PIN 1000).mode = MONOSTABLE
    ∧ (handle_button_interrupt ⟨1, 50, 0, true, 0⟩ MODE_PIN 1000).pulse = false
    ∧ (handle_button_interrupt (handle_button_interrupt ⟨1, 50, 0, true, 0⟩ MODE_PIN 1000)
        MODE_PIN 2000).mode = ASTABLE
    ∧ (handle_button_interrupt (handle_button_interrupt ⟨1, 50, 0, true, 0⟩ MODE_PIN 1000)
        MODE_PIN 2000).pulse = true :=
  mode_toggle_double_restores ⟨1, 50, 0, true, 0⟩ 1000 2000 rfl rfl (by decide) (by decide)

/-- C7: for every frequency at least 1 and duty cycle in [0, 100], the per-
iteration millisecond computations satisfy `high_time + low_time =
sleep_in_ms`, and the truncating division collapses the period to 0 whenever
the frequency exceeds 1000 Hz. -/
theorem period_split_and_collapse (f d : Int) (hf : 1 ≤ f) (hd0 : 0 ≤ d) (hd : d ≤ 100) :
    high_time f d + low_time f d = sleep_in_ms f
    ∧ (1000 < f → sleep_in_ms f = 0) := by
  constructor
  · unfold low_time
    ring
  · intro h
    unfold sleep_in_ms
    exact Int.tdiv_eq_zero_of_lt (by omega) h

/-- C7 witness: at 2000 Hz and 50 % duty the split identity holds and the
period truncates to 0 ms. -/
theorem period_split_and_collapse_witness :
    high_time 2000 50 + low_time 2000 50 = sleep_in_ms 2000 ∧ sleep_in_ms 2000 = 0 :=
  ⟨(period_split_and_collapse 2000 50 (by decide) (by decide) (by decide)).1,
   (period_split_and_collapse 2000 50 (by decide) (by decide) (by decide)).2 (by decide)⟩

/-- C10: a STEP edge that passes the debounce check while the mode is Astable
changes neither the mode nor pulse-enable (nor frequency or duty cycle): the
handler sets pulse-enable on STEP only when it observes Monostable. -/
theorem step_in_astable_frame (s : MainState) (t : Nat)
    (hm : s.mode = ASTABLE)
    (hacc : ¬ debounce_diff t s.last_interrupt_ms < DEBOUNCE_DELAY) :
    (handle_button_interrupt s STEP_PIN t).mode = s.mode
    ∧ (handle_button_interrupt s STEP_PIN t).pulse = s.pulse
    ∧ (handle_button_interrupt s STEP_PIN t).frequency = s.frequency
    ∧ (handle_button_interrupt s STEP_PIN t).duty_cycle = s.duty_cycle := by
  unfold handle_button_interrupt
  rw [if_neg hacc, if_neg (by decide), if_neg (by simp [hm, ASTABLE, MONOSTABLE])]
  simp

/-- C10 witness: a debounce-passing STEP edge at t = 500 ms in Astable mode
leaves mode, pulse-enable, frequency and duty cycle as they were. -/
theorem step_in_astable_frame_witness :
    (handle_button_interrupt ⟨7, 50, 0, true, 0⟩ STEP_PIN 500).mode = ASTABLE
    ∧ (handle_button_interrupt ⟨7, 50, 0, true, 0⟩ STEP_PIN 500).pulse = true
    ∧ (handle_button_interrupt ⟨7, 50, 0, true, 0⟩ STEP_PIN 500).frequency = 7
    ∧ (handle_button_interrupt ⟨7, 50, 0, true, 0⟩ STEP_PIN 500).duty_cycle = 50 :=
  step_in_astable_frame ⟨7, 50, 0, true, 0⟩ 500 rfl (by decide)

/-- C2: for every integer n parsed from a `freq n` line (n inside the C `int`
range, since `atoi` overflow is undefined): above the 125000000 cap the
command only prints the cap message and leaves the state untouched; for
0 < n at or below the cap the frequency is committed and a subsequent read
returns n. -/
theorem freq_cmd_cap_and_commit (s : ClockState) (cmd : List Char) (n : Nat)
    (hmatch : cmd.take 4 = "freq".data)
    (hparse : atoi (cmd.drop 5) = (n : Int))
    (hn : n < 2 ^ 31) :
    (125000000 < n →
      cmd_execute cmd s =
        (s, [CmdEffect.stop_timer,
             CmdEffect.msg "Frequency cannot be greater than 125000000\n",
             CmdEffect.run_timer]))
    ∧ (0 < n → n ≤ 125000000 →
      cmd_execute cmd s =
        (clock_set_freq_hz s n,
         [CmdEffect.stop_timer, CmdEffect.info, CmdEffect.run_timer])
      ∧ clock_get_freq_hz (cmd_execute cmd s).1 = n) := by
  have hcore := cmd_core_on_freq s cmd n hmatch hparse hn
  constructor
  · intro hgt
    unfold cmd_execute
    rw [hcore, if_pos hgt]
    rfl
  · intro hpos hle
    have hng : ¬ (n > 125000000) := by omega
    unfold cmd_execute
    rw [hcore, if_neg hng]
    exact ⟨rfl, rfl⟩

/-- C2 witness: `freq 200000000` is rejected with the cap message and no
state change; `freq 42` commits frequency 42. -/
theorem freq_cmd_cap_and_commit_witness :
    cmd_execute "freq 200000000".data ⟨1, 50, 0, 0, true⟩ =
      (⟨1, 50, 0, 0, true⟩,
       [CmdEffect.stop_timer,
        CmdEffect.msg "Frequency cannot be greater than 125000000\n",
        CmdEffect.run_timer])
    ∧ cmd_execute "freq 42".data ⟨1, 50, 0, 0, true⟩ =
      (clock_set_freq_hz ⟨1, 50, 0, 0, true⟩ 42,
       [CmdEffect.stop_timer, CmdEffect.info, CmdEffect.run_timer]) :=
  ⟨(freq_cmd_cap_and_commit ⟨1, 50, 0, 0, true⟩ _ 200000000
      (by decide) (by decide) (by decide)).1 (by decide),
   ((freq_cmd_cap_and_commit ⟨1, 50, 0, 0, true⟩ _ 42
      (by decide) (by decide) (by decide)).2 (by decide) (by decide)).1⟩

/-- C3: evaluation at the failing input. The line `freq 0` parses to 0,
passes the only validation (`hz > 125000000`) and commits frequency 0, so
the claimed lower bound of 1 does not hold and the pulse loop's
`1000 / frequency` can be reached with frequency = 0. Negative input, by
contrast, wraps to a large `u_int32_t` and is rejected by the cap check. -/
theorem freq_zero_accepted_evaluation :
    cmd_execute "freq 0".data ⟨1, 50, 0, 0, true⟩ =
      (⟨0, 50, 0, 0, true⟩, [CmdEffect.stop_timer, CmdEffect.info, CmdEffect.run_timer])
    ∧ clock_get_freq_hz (cmd_execute "freq 0".data ⟨1, 50, 0, 0, true⟩).1 = 0
    ∧ cmd_execute "freq -5".data ⟨1, 50, 0, 0, true⟩ =
      (⟨1, 50, 0, 0, true⟩,
       [CmdEffect.stop_timer,
        CmdEffect.msg "Frequency cannot be greater than 125000000\n",
        CmdEffect.run_timer]) := by
  decide

/-- C4 counterexample: in PWM mode the line `duty 65536` parses to 65536,
which is greater than 100, yet the conversion to `u_int16_t` truncates it to
0 before the range check, so the command is accepted and overwrites the duty
cycle (50 becomes 0) with no failure message. -/
theorem duty_cmd_truncation_counterexample :
    cmd_execute "duty 65536".data ⟨1, 50, 1, 0, true⟩ =
      (⟨1, 0, 1, 0, true⟩, [CmdEffect.stop_timer, CmdEffect.info, CmdEffect.run_timer])
    ∧ CmdEffect.msg "Duty cycle cannot be greater than 100\n" ∉
        (cmd_execute "duty 65536".data ⟨1, 50, 1, 0, true⟩).2 := by
  decide

/-- C4 (amended): for every integer n parsed from a `duty n` line (n inside
the C `int` range): with timer kind RPT the command fails with the PWM-only
message and changes nothing; with kind PWM the parsed value is first
truncated to `u_int16_t`, and it is n mod 2^16 that is compared against 100 —
above 100 the command fails and changes nothing, otherwise the duty cycle is
set to n mod 2^16. -/
theorem duty_cmd_amended (s : ClockState) (cmd : List Char) (n : Nat)
    (hmatch : cmd.take 4 = "duty".data)
    (hparse : atoi (cmd.drop 5) = (n : Int))
    (hn : n < 2 ^ 31) :
    (clock_get_timer_type s = CLOCK_TIMER_RPT →
      cmd_execute cmd s =
        (s, [CmdEffect.stop_timer,
             CmdEffect.msg "Duty cycle can only be set in PWM mode\n",
             CmdEffect.run_timer]))
    ∧ (clock_get_timer_type s ≠ CLOCK_TIMER_RPT → 100 < n % 2 ^ 16 →
      cmd_execute cmd s =
        (s, [CmdEffect.stop_timer,
             CmdEffect.msg "Duty cycle cannot be greater than 100\n",
             CmdEffect.run_timer]))
    ∧ (clock_get_timer_type s ≠ CLOCK_TIMER_RPT → n % 2 ^ 16 ≤ 100 →
      cmd_execute cmd s =
        (clock_set_duty_cycle s (n % 2 ^ 16),
         [CmdEffect.stop_timer, CmdEffect.info, CmdEffect.run_timer])
      ∧ clock_get_duty_cycle (cmd_execute cmd s).1 = n % 2 ^ 16) := by
  have hcore := cmd_core_on_duty s cmd n hmatch hparse hn
  refine ⟨?_, ?_, ?_⟩
  · intro hrpt
    unfold cmd_execute
    rw [hcore, if_pos hrpt]
    rfl
  · intro hpwm hgt
    unfold cmd_execute
    rw [hcore, if_neg hpwm, if_pos hgt]
    rfl
  · intro hpwm hle
    have hng : ¬ (n % 2 ^ 16 > 100) := by omega
    unfold cmd_execute
    rw [hcore, if_neg hpwm, if_neg hng]
    exact ⟨rfl, rfl⟩

/-- C4 (amended) witness: `duty 70` fails under timer kind RPT and leaves the
state unchanged, and commits 70 under kind PWM. -/
theorem duty_cmd_amended_witness :
    cmd_execute "duty 70".data ⟨1, 50, 0, 0, true⟩ =
      (⟨1, 50, 0, 0, true⟩,
       [CmdEffect.stop_timer,
        CmdEffect.msg "Duty cycle can only be set in PWM mode\n",
        CmdEffect.run_timer])
    ∧ cmd_execute "duty 70".data ⟨1, 50, 1, 0, true⟩ =
      (clock_set_duty_cycle ⟨1, 50, 1, 0, true⟩ (70 % 2 ^ 16),
       [CmdEffect.stop_timer, CmdEffect.info, CmdEffect.run_timer]) :=
  ⟨(duty_cmd_amended ⟨1, 50, 0, 0, true⟩ _ 70 (by decide) (by decide) (by decide)).1 rfl,
   ((duty_cmd_amended ⟨1, 50, 1, 0, true⟩ _ 70
      (by decide) (by decide) (by decide)).2.2 (by decide) (by decide)).1⟩

/-- C8: the console line buffer never exceeds 255 characters for any input
byte sequence; a non-control byte arriving with the buffer full is dropped
with no dispatch and no echo; a tick dispatches a line only when the byte is
newline (10) or carriage return (13); and a backspace byte on an empty
buffer neither shrinks the buffer nor dispatches, echoing only the
corrective space. -/
theorem console_buffer_safety :
    (∀ inputs : List (Option Nat), (console_run inputs).length ≤ 255)
    ∧ (∀ (buf : List Char) (c : Nat), buf.length = 255 →
        ¬(c = 0x08 ∨ c = 0x7F) → ¬(c = 10 ∨ c = 13) →
        cmd_timer_callback buf (some c) = ⟨buf, none, ""⟩)
    ∧ (∀ (buf : List Char) (ch : Option Nat),
        (cmd_timer_callback buf ch).dispatched ≠ none →
        ch = some 10 ∨ ch = some 13)
    ∧ (∀ c : Nat, c = 0x08 ∨ c = 0x7F →
        cmd_timer_callback [] (some c) = ⟨[], none, " "⟩) := by
  refine ⟨?_, ?_, ?_, ?_⟩
  · have hfold : ∀ (ins : List (Option Nat)) (b : List Char), b.length ≤ 255 →
        (ins.foldl (fun b i => (cmd_timer_callback b i).buf) b).length ≤ 255 := by
      intro ins
      induction ins with
      | nil => intro b hb; simpa using hb
      | cons i ins ih =>
        intro b hb
        exact ih _ (tick_buf_le b i hb)
    intro inputs
    exact hfold inputs [] (by simp)
  · intro buf c hfull hc1 hc2
    simp only [cmd_timer_callback]
    rw [if_neg hc1, if_neg hc2, if_neg (by omega)]
  · intro buf ch hd
    cases ch with
    | none => simp [cmd_timer_callback] at hd
    | some c =>
      simp only [cmd_timer_callback] at hd
      by_cases hb : c = 0x08 ∨ c = 0x7F
      · rw [if_pos hb] at hd
        by_cases he : buf.length = 0
        · rw [if_pos he] at hd
          simp at hd
        · rw [if_neg he] at hd
          simp at hd
      · rw [if_neg hb] at hd
        by_cases hnl : c = 10 ∨ c = 13
        · rcases hnl with h | h
          · left; rw [h]
          · right; rw [h]
        · rw [if_neg hnl] at hd
          by_cases hroom : buf.length < 255
          · rw [if_pos hroom] at hd
            simp at hd
          · rw [if_neg hroom] at hd
            simp at hd
  · intro c hc
    simp only [cmd_timer_callback]
    rw [if_pos hc, if_pos (show ([] : List Char).length = 0 from rfl)]

/-- C8 witness: 260 letter bytes without a newline keep the buffer at or
below 255 characters; a byte arriving on a full 255-character buffer is
dropped without dispatch; backspace on the empty buffer echoes one space and
dispatches nothing. -/
theorem console_buffer_safety_witness :
    (console_run (List.replicate 260 (some 97))).length ≤ 255
    ∧ cmd_timer_callback (List.replicate 255 (Char.ofNat 97)) (some 98) =
        ⟨List.replicate 255 (Char.ofNat 97), none, ""⟩
    ∧ cmd_timer_callback [] (some 8) = ⟨[], none, " "⟩ :=
  ⟨console_buffer_safety.1 (List.replicate 260 (some 97)),
   console_buffer_safety.2.1 (List.replicate 255 (Char.ofNat 97)) 98
     (List.length_replicate 255 _) (by decide) (by decide),
   console_buffer_safety.2.2.2 8 (by decide)⟩

/-- C9: an input line matching none of the listed command tokens is treated
as an implicit step request when the mode is Monostable (the pulse is armed
and "..." is printed), and otherwise only prints "Unknown command", leaving
the generator state unchanged. -/
theorem fallback_step_or_unknown (s : ClockState) (cmd : List Char)
    (h1 : cmd ≠ "?".data) (h2 : cmd ≠ "start".data) (h3 : cmd ≠ "stop".data)
    (h4 : cmd ≠ "step".data) (h5 : cmd.take 4 ≠ "freq".data)
    (h6 : cmd.take 4 ≠ "duty".data) (h7 : cmd ≠ "reset".data)
    (h8 : cmd ≠ "reboot".data) (h9 : cmd ≠ "clear".data) (h10 : cmd ≠ "exit".data) :
    (clock_get_mode s = CLOCK_MONOSTABLE →
      cmd_execute cmd s =
        (clock_step_pulse s,
         [CmdEffect.stop_timer, CmdEffect.msg "...\n", CmdEffect.run_timer]))
    ∧ (clock_get_mode s ≠ CLOCK_MONOSTABLE →
      cmd_execute cmd s =
        (s, [CmdEffect.stop_timer, CmdEffect.msg "Unknown command\n",
             CmdEffect.run_timer])) := by
  have hcore : cmd_execute_core cmd s =
      if clock_get_mode s = CLOCK_MONOSTABLE then
        (clock_step_pulse s, [.msg "...\n"])
      else
        (s, [.msg "Unknown command\n"]) := by
    unfold cmd_execute_core
    rw [if_neg h1, if_neg h2, if_neg h3, if_neg h4, if_neg h5, if_neg h6,
        if_neg h7, if_neg h8, if_neg h9, if_neg (fun h => h10 h.1)]
  constructor
  · intro hmode
    unfold cmd_execute
    rw [hcore, if_pos hmode]
    rfl
  · intro hmode
    unfold cmd_execute
    rw [hcore, if_neg hmode]
    rfl

/-- C9 witness: the unmatched line `foobar` arms a step pulse in Monostable
mode and prints only "Unknown command" in Astable mode. -/
theorem fallback_step_or_unknown_witness :
    cmd_execute "foobar".data ⟨1, 50, 0, 1, false⟩ =
      (clock_step_pulse ⟨1, 50, 0, 1, false⟩,
       [CmdEffect.stop_timer, CmdEffect.msg "...\n", CmdEffect.run_timer])
    ∧ cmd_execute "foobar".data ⟨1, 50, 0, 0, true⟩ =
      (⟨1, 50, 0, 0, true⟩,
       [CmdEffect.stop_timer, CmdEffect.msg "Unknown command\n",
        CmdEffect.run_timer]) :=
  ⟨(fallback_step_or_unknown ⟨1, 50, 0, 1, false⟩ "foobar".data
      (by decide) (by decide) (by decide) (by decide) (by decide)
      (by decide) (by decide) (by decide) (by decide) (by decide)).1 rfl,
   (fallback_step_or_unknown ⟨1, 50, 0, 0, true⟩ "foobar".data
      (by decide) (by decide) (by decide) (by decide) (by decide)
      (by decide) (by decide) (by decide) (by decide) (by decide)).2 (by decide)⟩

end PicowTimerEmu
